import Mathlib

/-!
Verification of the price-tracking pipeline (scrapers, dispatcher, price
store, tracking orchestrator) against its natural-language specification.

The source is shallowly embedded: prices are rationals, per-(product, site)
price history is a list of records ordered newest-first (mirroring the
`ORDER BY timestamp DESC` reads over monotonically timestamped inserts),
and Python exceptions surface as `Except` values.
-/

namespace PriceTracker

/-- A persisted price observation (one row of `price_history`), as created by
`DatabaseManager.add_price_record`. -/
structure PriceRecord where
  price : ℚ
  title : String
  url : String
  available : Bool
  timestamp : ℕ
deriving Repr, DecidableEq

/-- The information `DatabaseManager.check_price_drop` returns on a
significant drop. -/
structure DropInfo where
  product : String
  site : String
  previous_price : ℚ
  current_price : ℚ
  amount_drop : ℚ
  percentage_drop : ℚ
  timestamp : ℕ
deriving Repr, DecidableEq

/-- History of one (product, site) pair, newest record first. -/
abbrev History := List PriceRecord

/-- Embedding of `DatabaseManager.add_price_record` restricted to one
(product, site) partition: reads the most recent price (`ORDER BY timestamp DESC LIMIT 1`),
computes `price_changed = last_price_row is None or last_price_row[0] != price`,
and inserts a new row with the current timestamp.  Returns the `changed`
flag together with the updated history. -/
def add_price_record (hist : History) (price : ℚ) (title url : String)
    (available : Bool) (now : ℕ) : Bool × History :=
  let price_changed :=
    match hist.head? with
    | none => true
    | some last => decide (last.price ≠ price)
  (price_changed,
   { price := price, title := title, url := url,
     available := available, timestamp := now } :: hist)

/-- Embedding of `DatabaseManager.check_price_drop` restricted to one
(product, site) partition: reads the two most recent rows (`ORDER BY timestamp DESC LIMIT 2`);
with fewer than two rows returns `None`; otherwise computes
`price_diff = previous_price - current_price` and
`percentage_drop = (price_diff / previous_price) * 100` — in Python this
division raises `ZeroDivisionError` when `previous_price == 0`, modelled here
as `Except.error ()` — and returns the drop info when
`price_diff >= amount_threshold or percentage_drop >= percentage_threshold`. -/
def check_price_drop (product site : String) (hist : History)
    (percentage_threshold amount_threshold : ℚ) :
    Except Unit (Option DropInfo) :=
  match hist with
  | current :: previous :: _ =>
    if previous.price = 0 then
      Except.error ()
    else
      let price_diff := previous.price - current.price
      let percentage_drop := (price_diff / previous.price) * 100
      if price_diff ≥ amount_threshold ∨ percentage_drop ≥ percentage_threshold then
        Except.ok (some
          { product := product, site := site,
            previous_price := previous.price,
            current_price := current.price,
            amount_drop := price_diff,
            percentage_drop := percentage_drop,
            timestamp := current.timestamp })
      else
        Except.ok none
  | _ => Except.ok none

/-! ## Page fetcher (`BaseScraper.fetch_page`) -/

/-- Embedding of the attempt loop of `BaseScraper.fetch_page`.  The network is
abstracted by `outcomes`: `outcomes a = some doc` models attempt `a` returning
a 2xx response parsed into `doc`; `outcomes a = none` models a
`RequestException` (timeout, connection error, or non-2xx via
`raise_for_status`).  The loop runs over `range max_retries`; a successful
attempt returns the document at once, a failed final attempt (and loop
exhaustion) yields `none`.  The first component counts attempts actually
made. -/
def fetch_loop {Doc : Type} (outcomes : ℕ → Option Doc) :
    List ℕ → ℕ → ℕ × Option Doc
  | [], made => (made, none)
  | a :: rest, made =>
    match outcomes a with
    | some doc => (made + 1, some doc)
    | none => fetch_loop outcomes rest (made + 1)

/-- Embedding of `BaseScraper.fetch_page`: iterate the attempt loop over
`for attempt in range(self.max_retries)`. -/
def fetch_page {Doc : Type} (max_retries : ℕ) (outcomes : ℕ → Option Doc) :
    ℕ × Option Doc :=
  fetch_loop outcomes (List.range max_retries) 0

/-! ## Scrape assembly (`BaseScraper.scrape_product`) -/

/-- Transient result assembled by `BaseScraper.scrape_product`. -/
structure ScrapeResult where
  price : ℚ
  title : String
  url : String
  available : Bool
  timestamp : ℕ
deriving Repr, DecidableEq

/-- Python truthiness defaulting `title or 'Unknown Product'`: the default is
used when the optional string is `None` or empty (both falsy in Python). -/
def orDefault (x : Option String) (d : String) : String :=
  match x with
  | none => d
  | some s => if s = "" then d else s

/-- Embedding of `BaseScraper.scrape_product`.  The already-completed fetch is
`fetched` (`none` models `fetch_page` returning `None`); the three abstract
extraction methods are passed as functions (the site subclasses implement
them).  If the fetch failed, or `extract_price` yields `None`, no result is
produced; otherwise the record carries the title defaulted through Python
`or`, the url, the availability and the current timestamp. -/
def scrape_product {Doc : Type}
    (extract_price : Doc → Option ℚ) (extract_title : Doc → Option String)
    (extract_availability : Doc → Bool)
    (fetched : Option Doc) (url : String) (now : ℕ) : Option ScrapeResult :=
  match fetched with
  | none => none
  | some soup =>
    match extract_price soup with
    | none => none
    | some price =>
      some { price := price,
             title := orDefault (extract_title soup) "Unknown Product",
             url := url,
             available := extract_availability soup,
             timestamp := now }

/-! ## Dispatcher (`ScraperFactory`) -/

/-- Python `str.lower()` over a URL, as a character list (ASCII folding). -/
def lowerChars (s : String) : List Char := s.data.map Char.toLower

/-- Boolean test that `pat` starts `s`. -/
def isPreL : List Char → List Char → Bool
  | [], _ => true
  | _ :: _, [] => false
  | a :: as, b :: bs => a == b && isPreL as bs

/-- Python substring containment `pat in s` on character lists. -/
def isSubL (pat : List Char) : List Char → Bool
  | [] => isPreL pat []
  | c :: rest => isPreL pat (c :: rest) || isSubL pat rest

/-- Scraper instances the factory can construct. -/
inductive Scraper where
  | amazon (max_retries timeout : ℕ)
  | bestbuy (max_retries timeout : ℕ)
deriving Repr, DecidableEq

/-- Embedding of `ScraperFactory.get_scraper`: lowercase the URL, test
`'amazon.com' in url_lower` then `'bestbuy.com' in url_lower`, returning the
matching scraper or `None`. -/
def get_scraper (url : String) (max_retries timeout : ℕ) : Option Scraper :=
  let url_lower := lowerChars url
  if isSubL "amazon.com".data url_lower then
    some (Scraper.amazon max_retries timeout)
  else if isSubL "bestbuy.com".data url_lower then
    some (Scraper.bestbuy max_retries timeout)
  else
    none

/-- Embedding of `ScraperFactory.get_site_name`: same containment tests,
returning the display name or the sentinel `"Unknown"`. -/
def get_site_name (url : String) : String :=
  let url_lower := lowerChars url
  if isSubL "amazon.com".data url_lower then "Amazon"
  else if isSubL "bestbuy.com".data url_lower then "Best Buy"
  else "Unknown"

/-- Drops everything through the first `"://"`; `none` when absent. -/
def dropScheme : List Char → Option (List Char)
  | ':' :: '/' :: '/' :: rest => some rest
  | _ :: rest => dropScheme rest
  | [] => none

/-- Modelled from the spec: the URL's *host* ("substring match on the URL's
host against a fixed registry").  The repository has no host parser — the
source matches on the whole URL string — so the host is taken per the spec's
ordinary meaning: the text after the scheme separator `"://"` (or the start
of the string when absent) up to the first `/`, `?` or `#`. -/
def hostOf (url : String) : String :=
  String.mk ((match dropScheme url.data with
              | some r => r
              | none => url.data).takeWhile
    (fun c => !(c == '/' || c == '?' || c == '#')))

/-! ## Tracking orchestrator (`PriceTracker.track_product`) -/

/-- Whole price store: the persisted history of each (product, site) pair,
newest record first. -/
def Store := String → String → History

/-- Replace the history of one (product, site) pair. -/
def Store.update (db : Store) (product site : String) (h : History) : Store :=
  fun p s => if p = product ∧ s = site then h else db p s

/-- Per-cycle summary built by `track_product`: the `results` dict with its
`prices` mapping (a site-keyed dict, modelled as an insertion-ordered
association list) and its `alerts` list. -/
structure TrackResults where
  product : String
  prices : List (String × ℚ)
  alerts : List DropInfo
deriving Repr, DecidableEq

/-- Python dict assignment `prices[site] = p`: overwrite in place when the key
exists, append otherwise. -/
def setPrice (prices : List (String × ℚ)) (site : String) (p : ℚ) :
    List (String × ℚ) :=
  if prices.any (fun e => e.1 == site) then
    prices.map (fun e => if e.1 == site then (site, p) else e)
  else
    prices ++ [(site, p)]

/-- Embedding of one iteration of the per-URL loop of
`PriceTracker.track_product`, with its enclosing `try/except Exception`
inlined (the handler only logs and continues).  The network side of
`scrape_product` is abstracted by the oracle `scrape`; `persist_fails url`
models `add_price_record` raising on that URL (storage failure — the caught
exception leaves neither a committed row nor a `prices` entry).  A
`ZeroDivisionError` raised by `check_price_drop` is likewise caught by the
same handler, after the row and the `prices` entry are already in place, and
merely skips the alert. -/
def track_url_step (product : String) (max_retries timeout : ℕ)
    (scrape : String → Option ScrapeResult) (persist_fails : String → Bool)
    (pct_thr amt_thr : ℚ) (now : ℕ)
    (st : Store × TrackResults) (site_url : String × String) :
    Store × TrackResults :=
  let db := st.1
  let results := st.2
  let url := site_url.2
  match get_scraper url max_retries timeout with
  | none => (db, results)
  | some _ =>
    match scrape url with
    | none => (db, results)
    | some product_data =>
      let site_name := get_site_name url
      if persist_fails url then
        (db, results)
      else
        let rec_res := add_price_record (db product site_name)
          product_data.price product_data.title url product_data.available now
        let price_changed := rec_res.1
        let db1 := Store.update db product site_name rec_res.2
        let results1 := { results with
          prices := setPrice results.prices site_name product_data.price }
        if price_changed then
          match check_price_drop product site_name (db1 product site_name)
              pct_thr amt_thr with
          | Except.error _ => (db1, results1)
          | Except.ok none => (db1, results1)
          | Except.ok (some d) =>
            (db1, { results1 with alerts := results1.alerts ++ [d] })
        else
          (db1, results1)

/-- Embedding of `PriceTracker.track_product`: fold the per-URL step over the
configured (site key, url) pairs, starting from the fresh `results`
summary. -/
def track_product (product : String) (max_retries timeout : ℕ)
    (scrape : String → Option ScrapeResult) (persist_fails : String → Bool)
    (pct_thr amt_thr : ℚ) (now : ℕ)
    (urls : List (String × String)) (db : Store) : Store × TrackResults :=
  urls.foldl
    (track_url_step product max_retries timeout scrape persist_fails
      pct_thr amt_thr now)
    (db, { product := product, prices := [], alerts := [] })

/-! ## Theorems about the price store -/

/-- C2: for every (product, site) pair and all threshold values,
`check_price_drop` returns `None` whenever fewer than two price records exist
for that pair; equivalently a drop event is only produced with at least two
records. -/
theorem C2_checkDrop_none_without_two_records (product site : String)
    (hist : History) (pct amt : ℚ) (h : hist.length < 2) :
    check_price_drop product site hist pct amt = Except.ok none := by
  match hist with
  | [] => rfl
  | [_] => rfl
  | a :: b :: t => exact absurd h (by simp [List.length_cons])

/-- Witness for C2 at a one-record history. -/
theorem C2_witness :
    ([⟨10, "t", "u", true, 0⟩] : History).length < 2 ∧
    check_price_drop "p" "s" [⟨10, "t", "u", true, 0⟩] 5 10 =
      Except.ok none :=
  ⟨by decide,
   C2_checkDrop_none_without_two_records "p" "s" _ 5 10 (by decide)⟩

/-- C3: the `changed` flag of `add_price_record` is true iff there is no
preceding record for the pair or the new price differs from the immediately
preceding record's price by exact numeric inequality; the first call on a
fresh pair returns true, and a call whose price equals the preceding price
returns false. -/
theorem C3_changed_iff (hist : History) (price : ℚ) (title url : String)
    (avail : Bool) (now : ℕ) :
    ((add_price_record hist price title url avail now).1 = true ↔
      hist.head? = none ∨
        ∃ last, hist.head? = some last ∧ last.price ≠ price) ∧
    (hist = [] → (add_price_record hist price title url avail now).1 = true) ∧
    (∀ last rest, hist = last :: rest → last.price = price →
      (add_price_record hist price title url avail now).1 = false) := by
  refine ⟨?_, ?_, ?_⟩
  · cases hist with
    | nil => simp [add_price_record]
    | cons last rest => simp [add_price_record]
  · intro h; subst h; rfl
  · intro last rest h hp; subst h
    simp [add_price_record, hp]

/-- Witness for C3: first call on a fresh pair returns true, and the call
after an equal price returns false. -/
theorem C3_witness :
    (add_price_record [] 10 "t" "u" true 0).1 = true ∧
    (add_price_record [⟨10, "t", "u", true, 0⟩] 10 "t" "u" true 1).1 =
      false :=
  ⟨(C3_changed_iff [] 10 "t" "u" true 0).2.1 rfl,
   (C3_changed_iff [⟨10, "t", "u", true, 0⟩] 10 "t" "u" true 1).2.2
     ⟨10, "t", "u", true, 0⟩ [] rfl rfl⟩

/-- C4: every call to `add_price_record` appends exactly one new record,
carrying the given price, title, url, availability and the current timestamp,
even when the price is unchanged, and every previously persisted record
survives unmodified as the tail of the new history. -/
theorem C4_append_only (hist : History) (price : ℚ) (title url : String)
    (avail : Bool) (now : ℕ) :
    ((add_price_record hist price title url avail now).2).length =
      hist.length + 1 ∧
    ((add_price_record hist price title url avail now).2).tail = hist ∧
    ∃ r, (add_price_record hist price title url avail now).2 = r :: hist ∧
      r.price = price ∧ r.title = title ∧ r.url = url ∧
      r.available = avail ∧ r.timestamp = now := by
  exact ⟨by simp [add_price_record], rfl,
    ⟨_, rfl, rfl, rfl, rfl, rfl, rfl⟩⟩

/-- C1 counterexample: with thresholds quantified over *all* values, the
"never a drop event when the current price exceeds the previous one" half
fails: at previous price 10, current price 11 and amount threshold −5, the
price rose yet `check_price_drop` returns a drop event (the difference −1
still clears the negative amount threshold). -/
theorem C1_counterexample :
    (⟨11, "", "", true, 1⟩ : PriceRecord).price >
      (⟨10, "", "", true, 0⟩ : PriceRecord).price ∧
    check_price_drop "p" "s"
        [⟨11, "", "", true, 1⟩, ⟨10, "", "", true, 0⟩] 100 (-5) =
      Except.ok (some ⟨"p", "s", 10, 11, -1, -10, 1⟩) := by
  constructor
  · norm_num
  · norm_num [check_price_drop]

/-- C1 amended: for a pair with at least two records and a positive previous
price, `check_price_drop` returns a drop event iff
`previous − current ≥ amountThreshold` or
`100×(previous − current)/previous ≥ percentageThreshold` (for any threshold
values); and provided both thresholds are nonnegative it never returns a drop
event when the current price exceeds the previous one. -/
theorem C1_amended (product site : String) (cur prev : PriceRecord)
    (rest : History) (pct amt : ℚ) (hprev : 0 < prev.price) :
    ((∃ d, check_price_drop product site (cur :: prev :: rest) pct amt =
        Except.ok (some d)) ↔
      (prev.price - cur.price ≥ amt ∨
        100 * (prev.price - cur.price) / prev.price ≥ pct)) ∧
    (0 ≤ amt → 0 ≤ pct → prev.price < cur.price →
      check_price_drop product site (cur :: prev :: rest) pct amt =
        Except.ok none) := by
  have hne : prev.price ≠ 0 := ne_of_gt hprev
  have hpct_eq : (prev.price - cur.price) / prev.price * 100 =
      100 * (prev.price - cur.price) / prev.price := by
    rw [div_mul_eq_mul_div, mul_comm]
  constructor
  · simp only [check_price_drop]
    rw [if_neg hne]
    by_cases hc : prev.price - cur.price ≥ amt ∨
        (prev.price - cur.price) / prev.price * 100 ≥ pct
    · rw [if_pos hc]
      rw [hpct_eq] at hc
      exact ⟨fun _ => hc, fun _ => ⟨_, rfl⟩⟩
    · rw [if_neg hc]
      rw [hpct_eq] at hc
      constructor
      · rintro ⟨d, hd⟩
        exact absurd hd (by simp)
      · intro h'
        exact absurd h' hc
  · intro hamt hpct hlt
    simp only [check_price_drop]
    rw [if_neg hne]
    have hdiff : prev.price - cur.price < 0 := by linarith
    have h2 : (prev.price - cur.price) / prev.price * 100 < 0 := by
      have hq : (prev.price - cur.price) / prev.price < 0 :=
        div_neg_of_neg_of_pos hdiff hprev
      nlinarith
    rw [if_neg (by push_neg; constructor <;> linarith)]

/-- Witness for C1 amended at the spec's own scenario: previous price 399.99,
current 379.99, thresholds pct = 5, amount = 10 — the drop of 20 clears the
amount threshold, so a drop event is emitted; and with previous 100 and
current 101 (price rose) no event is emitted. -/
theorem C1_amended_witness :
    (∃ d, check_price_drop "p" "s"
        [⟨(37999 : ℚ)/100, "", "", true, 1⟩, ⟨(39999 : ℚ)/100, "", "", true, 0⟩]
        5 10 = Except.ok (some d)) ∧
    check_price_drop "p" "s"
        [⟨101, "", "", true, 1⟩, ⟨100, "", "", true, 0⟩] 5 10 =
      Except.ok none := by
  constructor
  · exact (C1_amended "p" "s" ⟨(37999 : ℚ)/100, "", "", true, 1⟩
      ⟨(39999 : ℚ)/100, "", "", true, 0⟩ [] 5 10 (by norm_num)).1.mpr
      (by left; norm_num)
  · exact (C1_amended "p" "s" ⟨101, "", "", true, 1⟩
      ⟨100, "", "", true, 0⟩ [] 5 10 (by norm_num)).2
      (by norm_num) (by norm_num) (by norm_num)

/-- C10: with at least two records for the pair, `check_price_drop` divides
by the previous record's price unconditionally: it raises (ZeroDivisionError,
modelled as `Except.error`) exactly when that price is 0 — unguarded at the
public interface — and is total (returns some `Except.ok` value) whenever
that price is nonzero. -/
theorem C10_division_guard (product site : String) (cur prev : PriceRecord)
    (rest : History) (pct amt : ℚ) :
    (check_price_drop product site (cur :: prev :: rest) pct amt =
        Except.error () ↔ prev.price = 0) ∧
    (prev.price ≠ 0 →
      ∃ o, check_price_drop product site (cur :: prev :: rest) pct amt =
        Except.ok o) := by
  constructor
  · by_cases h : prev.price = 0
    · simp [check_price_drop, h]
    · simp only [check_price_drop]
      rw [if_neg h]
      split_ifs <;> simp [h]
  · intro h
    simp only [check_price_drop]
    rw [if_neg h]
    split_ifs
    · exact ⟨_, rfl⟩
    · exact ⟨_, rfl⟩

/-- Witness for C10: a previous price of 0 raises, a nonzero one is total. -/
theorem C10_witness :
    (check_price_drop "p" "s"
        [⟨8, "", "", true, 1⟩, ⟨0, "", "", true, 0⟩] 5 10 =
      Except.error ()) ∧
    ∃ o, check_price_drop "p" "s"
        [⟨8, "", "", true, 1⟩, ⟨10, "", "", true, 0⟩] 5 10 =
      Except.ok o :=
  ⟨(C10_division_guard "p" "s" ⟨8, "", "", true, 1⟩ ⟨0, "", "", true, 0⟩
      [] 5 10).1.mpr rfl,
   (C10_division_guard "p" "s" ⟨8, "", "", true, 1⟩ ⟨10, "", "", true, 0⟩
      [] 5 10).2 (by norm_num)⟩

/-! ## Theorems about the dispatcher -/

/-- C8 counterexample: the source matches registry entries as substrings of
the *whole* URL, not of its host.  For
`"https://unknown-shop.example/item?ref=amazon.com"` the host
(`unknown-shop.example`) matches no registry entry, yet `get_scraper` returns
the Amazon scraper and `get_site_name` returns `"Amazon"` — refuting "for
every URL whose host matches no registry entry, resolve returns None and
siteName returns Unknown". -/
theorem C8_counterexample :
    isSubL "amazon.com".data
      (lowerChars (hostOf "https://unknown-shop.example/item?ref=amazon.com"))
      = false ∧
    isSubL "bestbuy.com".data
      (lowerChars (hostOf "https://unknown-shop.example/item?ref=amazon.com"))
      = false ∧
    get_scraper "https://unknown-shop.example/item?ref=amazon.com" 3 30 =
      some (Scraper.amazon 3 30) ∧
    get_site_name "https://unknown-shop.example/item?ref=amazon.com" =
      "Amazon" := by
  refine ⟨?_, ?_, ?_, ?_⟩ <;> rfl

/-- C8 amended: the dispatcher resolves by substring match of the registry
entries against the entire lowercased URL string (not only its host):
`get_scraper` returns `None` and `get_site_name` returns the sentinel
`"Unknown"` exactly when the lowered URL contains neither `"amazon.com"` nor
`"bestbuy.com"`. -/
theorem C8_amended (url : String) (m t : ℕ) :
    (get_scraper url m t = none ∧ get_site_name url = "Unknown") ↔
      (isSubL "amazon.com".data (lowerChars url) = false ∧
       isSubL "bestbuy.com".data (lowerChars url) = false) := by
  unfold get_scraper get_site_name
  cases hA : isSubL "amazon.com".data (lowerChars url) <;>
    cases hB : isSubL "bestbuy.com".data (lowerChars url) <;>
      simp [hA, hB]

/-- Witness for C8 amended at the spec's scenario URL
`"https://unknown-shop.example/item"`. -/
theorem C8_amended_witness :
    get_scraper "https://unknown-shop.example/item" 3 30 = none ∧
    get_site_name "https://unknown-shop.example/item" = "Unknown" :=
  (C8_amended "https://unknown-shop.example/item" 3 30).mpr ⟨rfl, rfl⟩

/-- C9: `get_scraper` returns a scraper iff `get_site_name` is not
`"Unknown"`; it returns the Amazon scraper exactly when the site name is
`"Amazon"` and the Best Buy scraper exactly when it is `"Best Buy"`; and both
functions agree on any two URLs that coincide after lowercasing (differ only
in letter case). -/
theorem C9_factory_consistency (url : String) (m t : ℕ) :
    ((get_scraper url m t).isSome = true ↔ get_site_name url ≠ "Unknown") ∧
    (get_scraper url m t = some (Scraper.amazon m t) ↔
      get_site_name url = "Amazon") ∧
    (get_scraper url m t = some (Scraper.bestbuy m t) ↔
      get_site_name url = "Best Buy") ∧
    (∀ url2, lowerChars url = lowerChars url2 →
      get_scraper url m t = get_scraper url2 m t ∧
      get_site_name url = get_site_name url2) := by
  refine ⟨?_, ?_, ?_, ?_⟩
  · unfold get_scraper get_site_name
    cases hA : isSubL "amazon.com".data (lowerChars url) <;>
      cases hB : isSubL "bestbuy.com".data (lowerChars url) <;>
        simp [hA, hB]
  · unfold get_scraper get_site_name
    cases hA : isSubL "amazon.com".data (lowerChars url) <;>
      cases hB : isSubL "bestbuy.com".data (lowerChars url) <;>
        simp [hA, hB]
  · unfold get_scraper get_site_name
    cases hA : isSubL "amazon.com".data (lowerChars url) <;>
      cases hB : isSubL "bestbuy.com".data (lowerChars url) <;>
        simp [hA, hB]
  · intro url2 h
    unfold get_scraper get_site_name
    rw [h]
    exact ⟨rfl, rfl⟩

/-- Witness for C9 at two URLs differing only in letter case. -/
theorem C9_witness :
    get_scraper "https://AMAZON.com/dp/x" 3 30 =
      get_scraper "https://amazon.COM/dp/x" 3 30 ∧
    get_site_name "https://AMAZON.com/dp/x" =
      get_site_name "https://amazon.COM/dp/x" :=
  (C9_factory_consistency "https://AMAZON.com/dp/x" 3 30).2.2.2
    "https://amazon.COM/dp/x" (by decide)

/-! ## Theorems about scrape assembly and the fetcher -/

/-- C7 counterexample: Python's `title or 'Unknown Product'` tests
truthiness, so a *present but empty* extracted title is also replaced by the
sentinel — refuting "the title field is the extracted title when present"
at `extract_title` returning the empty string. -/
theorem C7_counterexample :
    ¬ (∀ (et : Unit → Option String) (r : ScrapeResult),
        scrape_product (fun _ => some (5 : ℚ)) et (fun _ => true)
          (some ()) "u" 0 = some r →
        ∀ tt, et () = some tt → r.title = tt) := by
  intro h
  have h0 := h (fun _ => some "")
    { price := 5, title := "Unknown Product", url := "u",
      available := true, timestamp := 0 } rfl "" rfl
  exact absurd h0 (by decide)

/-- C7 amended: for every successfully fetched document, `scrape_product`
returns no result whenever `extract_price` returns `None`; otherwise the
result's price is the extracted price and its title is the extracted title
when that is present and nonempty, and the sentinel `"Unknown Product"` when
the extracted title is absent or empty. -/
theorem C7_amended {Doc : Type} (extract_price : Doc → Option ℚ)
    (extract_title : Doc → Option String) (extract_availability : Doc → Bool)
    (doc : Doc) (url : String) (now : ℕ) :
    (extract_price doc = none →
      scrape_product extract_price extract_title extract_availability
        (some doc) url now = none) ∧
    (∀ r, scrape_product extract_price extract_title extract_availability
        (some doc) url now = some r →
      extract_price doc = some r.price ∧
      (∀ tt, extract_title doc = some tt → tt ≠ "" → r.title = tt) ∧
      ((extract_title doc = none ∨ extract_title doc = some "") →
        r.title = "Unknown Product")) := by
  constructor
  · intro h
    simp [scrape_product, h]
  · intro r hr
    cases hp : extract_price doc with
    | none => simp [scrape_product, hp] at hr
    | some p =>
      simp only [scrape_product, hp, Option.some.injEq] at hr
      subst hr
      refine ⟨rfl, ?_, ?_⟩
      · intro tt ht hne
        simp [orDefault, ht, hne]
      · rintro (ht | ht) <;> simp [orDefault, ht]

/-- Witness for C7 amended: price extraction miss yields no result, and a
missing title is replaced by the sentinel. -/
theorem C7_amended_witness :
    scrape_product (fun _ : Unit => (none : Option ℚ)) (fun _ => some "T")
      (fun _ => true) (some ()) "u" 0 = none ∧
    (∀ r, scrape_product (fun _ : Unit => some (5 : ℚ))
        (fun _ => (none : Option String)) (fun _ => true)
        (some ()) "u" 0 = some r → r.title = "Unknown Product") :=
  ⟨(C7_amended (fun _ : Unit => none) (fun _ => some "T") (fun _ => true)
      () "u" 0).1 rfl,
   fun r hr =>
    ((C7_amended (fun _ : Unit => some (5 : ℚ)) (fun _ => none)
        (fun _ => true) () "u" 0).2 r hr).2.2 (Or.inl rfl)⟩

/-- Any per-URL failure — unresolvable URL, failed scrape, or a raising
`add_price_record` — leaves the store and the running summary unchanged. -/
theorem track_url_step_skip (product : String) (m t : ℕ)
    (scrape : String → Option ScrapeResult) (persist_fails : String → Bool)
    (pct amt : ℚ) (now : ℕ) (db : Store) (results : TrackResults)
    (site url : String)
    (h : get_scraper url m t = none ∨ scrape url = none ∨
      persist_fails url = true) :
    track_url_step product m t scrape persist_fails pct amt now
      (db, results) (site, url) = (db, results) := by
  unfold track_url_step
  rcases h with h | h | h
  · simp [h]
  · cases hg : get_scraper url m t <;> simp [h, hg]
  · cases hg : get_scraper url m t with
    | none => simp [hg]
    | some sc =>
      cases hs : scrape url with
      | none => simp [hg, hs]
      | some d => simp [hg, hs, h]

/-- C6: with `max_retries = 3` and every attempt failing, `fetch_page` makes
exactly 3 attempts — never more — and returns a fetch failure; consequently
`scrape_product` yields nothing for that URL, and the orchestrator's per-URL
step persists no record (store and summary unchanged). -/
theorem C6_retry_exhaustion {Doc : Type} (outcomes : ℕ → Option Doc)
    (h : ∀ a, outcomes a = none)
    (extract_price : Doc → Option ℚ) (extract_title : Doc → Option String)
    (extract_availability : Doc → Bool) (url : String) (now : ℕ) :
    fetch_page 3 outcomes = (3, none) ∧
    scrape_product extract_price extract_title extract_availability
      (fetch_page 3 outcomes).2 url now = none ∧
    (∀ product m t persist_fails pct amt db results site,
      track_url_step product m t
        (fun u => scrape_product extract_price extract_title
          extract_availability (fetch_page 3 outcomes).2 u now)
        persist_fails pct amt now (db, results) (site, url) =
        (db, results)) := by
  have hrange : List.range 3 = [0, 1, 2] := rfl
  have hf : fetch_page 3 outcomes = (3, none) := by
    simp [fetch_page, hrange, fetch_loop, h]
  have hs : scrape_product extract_price extract_title extract_availability
      (fetch_page 3 outcomes).2 url now = none := by
    rw [hf]
    rfl
  refine ⟨hf, hs, ?_⟩
  intro product m t persist_fails pct amt db results site
  exact track_url_step_skip product m t _ persist_fails pct amt now db
    results site url (Or.inr (Or.inl hs))

/-- Witness for C6 at a concrete always-failing oracle. -/
theorem C6_witness :
    fetch_page 3 (fun _ : ℕ => (none : Option Unit)) = (3, none) ∧
    scrape_product (fun _ : Unit => some (5 : ℚ)) (fun _ => some "T")
      (fun _ => true) (fetch_page 3 (fun _ : ℕ => (none : Option Unit))).2
      "u" 0 = none ∧
    track_url_step "P" 3 30
      (fun u => scrape_product (fun _ : Unit => some (5 : ℚ))
        (fun _ => some "T") (fun _ => true)
        (fetch_page 3 (fun _ : ℕ => (none : Option Unit))).2 u 0)
      (fun _ => false) 5 10 0
      ((fun _ _ => []), { product := "P", prices := [], alerts := [] })
      ("amazon", "u") =
      ((fun _ _ => []), { product := "P", prices := [], alerts := [] }) := by
  have H := C6_retry_exhaustion (fun _ : ℕ => (none : Option Unit))
    (fun _ => rfl) (fun _ : Unit => some (5 : ℚ)) (fun _ => some "T")
    (fun _ => true) "u" 0
  exact ⟨H.1, H.2.1,
    H.2.2 "P" 3 30 (fun _ => false) 5 10 (fun _ _ => [])
      { product := "P", prices := [], alerts := [] } "amazon"⟩

/-! ## Theorems about the orchestrator's failure containment -/

/-- Store with no persisted history. -/
def emptyStore : Store := fun _ _ => []

/-- Concrete two-URL scrape oracle for the persistence-failure scenario. -/
def exScrape : String → Option ScrapeResult := fun u =>
  if u = "https://amazon.com/a" then
    some ⟨100, "A", "https://amazon.com/a", true, 0⟩
  else if u = "https://bestbuy.com/b" then
    some ⟨90, "B", "https://bestbuy.com/b", true, 0⟩
  else none

/-- Persistence fails (raises) exactly on the Amazon URL. -/
def exPersistFails : String → Bool := fun u => u == "https://amazon.com/a"

/-- The scenario's (site key, url) pairs, Amazon first. -/
def exUrls : List (String × String) :=
  [("amazon", "https://amazon.com/a"), ("bestbuy", "https://bestbuy.com/b")]

/-- C5 counterexample: a persistence failure does *not* abort the cycle —
with `add_price_record` raising on the first (Amazon) URL, the per-URL
`try/except` swallows it and the second (Best Buy) URL is still fully
processed: the cycle's summary carries the Best Buy price and its record is
persisted. -/
theorem C5_counterexample :
    exPersistFails "https://amazon.com/a" = true ∧
    (track_product "P" 3 30 exScrape exPersistFails 5 10 0 exUrls
        emptyStore).2 =
      { product := "P", prices := [("Best Buy", 90)], alerts := [] } ∧
    (track_product "P" 3 30 exScrape exPersistFails 5 10 0 exUrls
        emptyStore).1 "P" "Best Buy" =
      [⟨90, "B", "https://bestbuy.com/b", true, 0⟩] := by
  refine ⟨rfl, ?_, ?_⟩ <;> decide

/-- C5 amended: every failure of a single (site, url) pair — an unresolvable
URL, a failed fetch/extraction, and equally a persistence failure on that
pair — is contained at the orchestrator's per-URL boundary: the step leaves
the store and the summary unchanged, and the cycle continues over the
remaining pairs exactly as if the failing pair were absent; the driver always
returns a summary. -/
theorem C5_amended (product : String) (m t : ℕ)
    (scrape : String → Option ScrapeResult) (persist_fails : String → Bool)
    (pct amt : ℚ) (now : ℕ) (db : Store) (results : TrackResults)
    (site url : String) (rest : List (String × String))
    (h : get_scraper url m t = none ∨ scrape url = none ∨
      persist_fails url = true) :
    track_url_step product m t scrape persist_fails pct amt now
      (db, results) (site, url) = (db, results) ∧
    track_product product m t scrape persist_fails pct amt now
      ((site, url) :: rest) db =
      track_product product m t scrape persist_fails pct amt now rest db := by
  constructor
  · exact track_url_step_skip product m t scrape persist_fails pct amt now
      db results site url h
  · show List.foldl _ _ _ = List.foldl _ _ _
    rw [List.foldl_cons,
      track_url_step_skip product m t scrape persist_fails pct amt now
        _ _ site url h]

/-- Witness for C5 amended at the concrete persistence-failure scenario. -/
theorem C5_amended_witness :
    track_url_step "P" 3 30 exScrape exPersistFails 5 10 0
      (emptyStore, { product := "P", prices := [], alerts := [] })
      ("amazon", "https://amazon.com/a") =
      (emptyStore, { product := "P", prices := [], alerts := [] }) ∧
    track_product "P" 3 30 exScrape exPersistFails 5 10 0 exUrls
      emptyStore =
      track_product "P" 3 30 exScrape exPersistFails 5 10 0
        [("bestbuy", "https://bestbuy.com/b")] emptyStore := by
  have H := C5_amended "P" 3 30 exScrape exPersistFails 5 10 0 emptyStore
    { product := "P", prices := [], alerts := [] } "amazon"
    "https://amazon.com/a" [("bestbuy", "https://bestbuy.com/b")]
    (Or.inr (Or.inr rfl))
  exact H

end PriceTracker
